import Mathlib

/-!
Shallow embedding of the crypto-lark-bot-wallet-check repository
(src/balance_checker.py, src/wallet_analyzer.py, src/csv_analyzer.py,
src/diagnostic.py) and proofs about the claims of its specification.

Python `Decimal` values are modelled as exact rationals (`ℚ`): every
arithmetic operation the code performs on balances (parsing a literal,
dividing by 10^6, summation) is exact in Python's base-10 `Decimal`
arithmetic for the magnitudes involved, so `ℚ` is a faithful model.
Python `None` is modelled by `Option.none`, dictionaries by
insertion-ordered association lists, and network requests by an
explicit outcome parameter enumerating the code's `except` branches.
-/

namespace WalletCheck

/-- Python `Decimal`, modelled as an exact rational. -/
abbrev Dec := ℚ

/-- Python `str.lower()` restricted to the ASCII strings handled here:
lowercase every character. -/
def pyLower (s : String) : String := ⟨s.data.map Char.toLower⟩

/-- Value of a list of decimal digit characters, most significant first. -/
def digitsToNat (cs : List Char) : ℕ :=
  cs.foldl (fun a c => 10 * a + (c.toNat - 48)) 0

/-- Body of the decimal-literal parser once an optional sign has been
stripped: `digits`, `digits.digits`, `digits.` or `.digits`, nothing
else, returned as (negative?, integer part, fraction part, fraction
length). -/
def parsePartsCore (neg : Bool) (body : List Char) :
    Option (Bool × ℕ × ℕ × ℕ) :=
  let ip := body.takeWhile (fun c => c ≠ '.')
  match body.dropWhile (fun c => c ≠ '.') with
  | [] =>
      if ip.all Char.isDigit ∧ ip ≠ [] then
        some (neg, digitsToNat ip, 0, 0)
      else none
  | _ :: fp =>
      if (ip.all Char.isDigit ∧ fp.all Char.isDigit) ∧ (ip ≠ [] ∨ fp ≠ []) then
        some (neg, digitsToNat ip, digitsToNat fp, fp.length)
      else none

/-- Syntactic part of `Decimal(raw_balance_str)`: sign and digit groups
of a plain fixed-point decimal literal, `none` when the constructor
would raise. -/
def parseDecParts (s : String) : Option (Bool × ℕ × ℕ × ℕ) :=
  match s.toList with
  | '-' :: rest => parsePartsCore true rest
  | '+' :: rest => parsePartsCore false rest
  | cs => parsePartsCore false cs

/-- Exact rational value of a parsed decimal literal. -/
def partsVal (p : Bool × ℕ × ℕ × ℕ) : ℚ :=
  (if p.1 then -1 else 1) * ((p.2.1 : ℚ) + (p.2.2.1 : ℚ) / 10 ^ p.2.2.2)

/-- `Decimal(raw_balance_str)` of `balance_checker.py` line 67: parsing a
plain fixed-point decimal literal with optional sign, `some` the exact
value on success and `none` when the constructor would raise. -/
def parseDec (s : String) : Option ℚ :=
  (parseDecParts s).map partsVal

/-- One entry of the `data` list of the token endpoint's JSON body.
`token.get("tokenId")` is `none` when the key is absent;
`token.get("balance", "0")` defaults to `"0"`, hence an `Option`. -/
structure Token where
  tokenId : Option String
  balance : Option String
  deriving DecidableEq, Repr

/-- `BalanceService.USDT_CONTRACT` (balance_checker.py line 29). -/
def USDT_CONTRACT : String := "TR7NHqjeKQxGTCi8q8ZY4pL8otSzgjLj6t"

/-- Outcome of the single `requests.get` call of
`get_usdt_trc20_balance`, one constructor per `except` branch of
balance_checker.py lines 78-89 plus the successful case, which carries
the parsed `data` list (`resp.json().get("data", [])`, absent key = `[]`). -/
inductive ApiOutcome where
  | timeout
  | httpError (status : ℕ)
  | connectionError
  | requestError
  | jsonError
  | unexpectedError
  | ok (data : List Token)
  deriving DecidableEq, Repr

/-- The `for token in data` loop of balance_checker.py lines 63-76: the
first token whose `tokenId` equals the USDT contract determines the
result — its balance string parsed and divided by 10^6, or `0` when the
`Decimal` constructor raises; no matching token yields `0`. -/
def scanTokens : List Token → Dec
  | [] => 0
  | t :: ts =>
      if t.tokenId = some USDT_CONTRACT then
        match parseDec (t.balance.getD "0") with
        | some raw => raw / 1000000
        | none => 0
      else scanTokens ts

/-- `BalanceService.get_usdt_trc20_balance` (balance_checker.py lines
46-91; the identical copy in wallet_analyzer.py, and the `usdt_balance`
field computed by `diagnostic.py::get_usdt_balance_detailed`, follow the
same branches): `none` on every request failure, otherwise `some` of a
decimal balance — `0` for an empty token list, else the scan result. -/
def get_usdt_trc20_balance (o : ApiOutcome) : Option Dec :=
  match o with
  | .ok data => if data = [] then some 0 else some (scanTokens data)
  | _ => none

/-- `true` exactly on the `except`-branch outcomes of the request. -/
def ApiOutcome.isFailure : ApiOutcome → Bool
  | .ok _ => false
  | _ => true

/-- `BalanceService.validate_trc20_address` (balance_checker.py lines
93-99). The `isinstance` guard is implicit: addresses are strings here. -/
def validate_trc20_address (address : String) : Bool :=
  if address.isEmpty then false
  else address.startsWith "T" && address.length == 34

/-- One wallet's entry in the loaded `wallets.json` document; only the
fields `check_all_wallets` inspects are modelled. `wallet_info.get('address')`
is `none` when the key is absent. -/
structure WalletInfo where
  address : Option String
  company : Option String
  deriving DecidableEq, Repr

/-- One iteration of the selection loop of
`WalletBalanceChecker.check_all_wallets` (balance_checker.py lines
178-183): the wallet enters `wallets_to_check` only when its address is
present, truthy (non-empty) and passes `validate_trc20_address`. -/
def selectAddr (n : String) : Option String → Option (String × String)
  | some a =>
      if ¬a.isEmpty ∧ validate_trc20_address a then some (n, a) else none
  | none => none

/-- The selection loop of `check_all_wallets`, one `selectAddr` per
wallet of the loaded document. -/
def selectValidWallets (wallet_data : List (String × WalletInfo)) :
    List (String × String) :=
  wallet_data.filterMap (fun nw => selectAddr nw.1 nw.2.address)

/-- `BalanceService.fetch_multiple_balances` (balance_checker.py lines
106-124): one entry per input wallet, in order, holding the fetched
balance or `none`. The surrounding `try/except` writes `none` for a
wallet whose fetch raises; in this model every failure mode of the fetch
already yields `none`, so the entry is `fetch` applied to the address.
`fetch` abstracts the network: it maps an address to the outcome-derived
result of `get_usdt_trc20_balance`. -/
def fetch_multiple_balances (fetch : String → Option Dec)
    (wallets_to_check : List (String × String)) : List (String × Option Dec) :=
  wallets_to_check.map (fun na => (na.1, fetch na.2))

/-- The `results['summary']` record of `check_all_wallets`
(balance_checker.py lines 197-202). -/
structure Summary where
  successful_checks : ℕ
  failed_checks : ℕ
  total_usdt_balance : Dec
  wallets_with_balance : ℕ
  deriving DecidableEq, Repr

/-- One iteration of the result-processing loop of `check_all_wallets`
(balance_checker.py lines 220-226). -/
def summarizeStep (s : Summary) (nb : String × Option Dec) : Summary :=
  match nb.2 with
  | some balance =>
      { s with
        successful_checks := s.successful_checks + 1
        total_usdt_balance := s.total_usdt_balance + balance
        wallets_with_balance :=
          s.wallets_with_balance + (if 0 < balance then 1 else 0) }
  | none => { s with failed_checks := s.failed_checks + 1 }

/-- The result-processing loop of `check_all_wallets` (balance_checker.py
lines 205-227): a `some` balance bumps `successful_checks`, adds to the
total and, when positive, to `wallets_with_balance`; a `none` bumps only
`failed_checks`. -/
def summarize (balances : List (String × Option Dec)) : Summary :=
  balances.foldl summarizeStep ⟨0, 0, 0, 0⟩

/-- `WalletBalanceChecker.check_all_wallets`, restricted to the summary it
computes: select the valid wallets, fetch every balance, fold the results. -/
def check_all_wallets (fetch : String → Option Dec)
    (wallet_data : List (String × WalletInfo)) : Summary :=
  summarize (fetch_multiple_balances fetch (selectValidWallets wallet_data))

/-- The fields of one wallet's `summary` that
`WalletAnalyzer.create_master_summary` reads. -/
structure WalletSummary where
  usdt_balance_decimal : Option Dec
  trc20_transfers_in : ℕ
  trc20_transfers_out : ℕ
  trc20_api_success : Bool
  deriving DecidableEq, Repr

/-- The `totals` record of `create_master_summary` (wallet_analyzer.py
lines 583-591). -/
structure MasterTotals where
  total_usdt_balance : Dec
  wallets_with_usdt : ℕ
  successful_balance_checks : ℕ
  successful_trc20_transfer_checks : ℕ
  total_trc20_transfers_in : ℕ
  total_trc20_transfers_out : ℕ
  deriving DecidableEq, Repr

/-- The aggregation loop of `WalletAnalyzer.create_master_summary`
(wallet_analyzer.py lines 633-645), restricted to the `totals` record: a
present `usdt_balance_decimal` counts as a successful check and is added
to the total (counted again in `wallets_with_usdt` when positive); an
absent one adds nothing anywhere; transfer counts accumulate only when
the transfer fetch succeeded. -/
def masterStep (t : MasterTotals) (s : WalletSummary) : MasterTotals :=
  let t' :=
    match s.usdt_balance_decimal with
    | some b =>
        { t with
          successful_balance_checks := t.successful_balance_checks + 1
          total_usdt_balance := t.total_usdt_balance + b
          wallets_with_usdt := t.wallets_with_usdt + (if 0 < b then 1 else 0) }
    | none => t
  if s.trc20_api_success then
    { t' with
      successful_trc20_transfer_checks := t'.successful_trc20_transfer_checks + 1
      total_trc20_transfers_in := t'.total_trc20_transfers_in + s.trc20_transfers_in
      total_trc20_transfers_out := t'.total_trc20_transfers_out + s.trc20_transfers_out }
  else t'

/-- `create_master_summary` runs `masterStep` once per wallet summary. -/
def create_master_summary_totals (results : List WalletSummary) : MasterTotals :=
  results.foldl masterStep ⟨0, 0, 0, 0, 0, 0⟩

/-- The Wallet Status branch of `OutputAnalyzer.create_csv_row`
(csv_analyzer.py lines 136-145). The code compares
`float(usdt_balance)` and `float(trx_balance)` parsed from the summary
strings; the values are modelled by the exact numbers those strings
denote (a six-decimal-place balance is positive in `float` iff it is
positive as a number). -/
def create_csv_row_wallet_status (usdt_api_success : Bool)
    (usdt_balance trx_balance : Dec) (total_transactions : ℕ) : String :=
  if usdt_api_success then
    if 0 < usdt_balance then "Has USDT Balance"
    else if 0 < trx_balance ∨ 0 < total_transactions then "Active (No USDT)"
    else "Empty/Inactive"
  else "API Failed"

/-- One entry of a token-transfer list. `transfer.get('to_address', '')`
defaults to the empty string, hence plain strings with `""` standing for
an absent key; the camel-case pair are the alternative field names the
code falls back to. -/
structure Transfer where
  to_address : String
  from_address : String
  toAddress : String
  fromAddress : String
  deriving DecidableEq, Repr

/-- Effective lowercased to-address of a transfer (wallet_analyzer.py
lines 345-352): `to_address` lowercased, or `toAddress` lowercased when
the former is empty. -/
def Transfer.effTo (t : Transfer) : String :=
  let x := pyLower t.to_address
  if x = "" then pyLower t.toAddress else x

/-- Effective lowercased from-address of a transfer, same fallback. -/
def Transfer.effFrom (t : Transfer) : String :=
  let x := pyLower t.from_address
  if x = "" then pyLower t.fromAddress else x

/-- The counting loop of `count_trc20_transfers` (wallet_analyzer.py
lines 341-359): each transfer bumps the in-counter when its effective
to-address equals the lowercased wallet address, else the out-counter
when its effective from-address does, else neither. -/
def countStep (wallet_lower : String) (acc : ℕ × ℕ) (t : Transfer) : ℕ × ℕ :=
  if t.effTo = wallet_lower then (acc.1 + 1, acc.2)
  else if t.effFrom = wallet_lower then (acc.1, acc.2 + 1)
  else acc

/-- The counting loop runs `countStep` once per transfer, starting from
zero counters. -/
def countTransfersLoop (transfers : List Transfer) (wallet_lower : String) :
    ℕ × ℕ :=
  transfers.foldl (countStep wallet_lower) (0, 0)

/-- The result record of `count_trc20_transfers`. -/
structure TransferCounts where
  trc20_transfers_in : ℕ
  trc20_transfers_out : ℕ
  total_trc20_transfers : ℕ
  data_available : Bool
  deriving DecidableEq, Repr

/-- The response object `count_trc20_transfers` receives: the transfer
list is under `token_transfers` or under `data`; `none` models an absent
key (the code reads whichever key is present, `token_transfers` first). -/
structure TRC20Data where
  token_transfers : Option (List Transfer)
  data : Option (List Transfer)
  deriving DecidableEq, Repr

/-- `AdditionalDataService.count_trc20_transfers` (wallet_analyzer.py
lines 314-366): no response, or no (or an empty) transfer list, yields
zero counts with `data_available = false`; otherwise the counting loop
runs and `total_trc20_transfers` is the sum of the two counters. -/
def count_trc20_transfers (trc20_data : Option TRC20Data)
    (wallet_address : String) : TransferCounts :=
  match trc20_data with
  | none => ⟨0, 0, 0, false⟩
  | some d =>
      let transfers :=
        match d.token_transfers with
        | some l => l
        | none => d.data.getD []
      if transfers = [] then ⟨0, 0, 0, false⟩
      else
        let c := countTransfersLoop transfers (pyLower wallet_address)
        ⟨c.1, c.2, c.1 + c.2, true⟩

/-- One transaction-history entry; only the `timestamp` field (epoch
milliseconds, absent key = `none`) is read by `find_creation_date`. -/
structure Tx where
  timestamp : Option Int
  deriving DecidableEq, Repr

/-- Ordering used by `min(transactions, key=lambda tx: tx.get('timestamp',
float('inf')))`: an absent timestamp sorts above every present one. -/
def tsLt : Option Int → Option Int → Bool
  | some a, some b => a < b
  | some _, none => true
  | none, _ => false

/-- Python's `min` with the timestamp key: the first entry whose key is
strictly below every earlier candidate's. -/
def minStep (best u : Tx) : Tx :=
  if tsLt u.timestamp best.timestamp then u else best

/-- Python's `min` with the timestamp key keeps the earlier entry on
ties, i.e. folds `minStep` from the head. -/
def minByTs (t : Tx) (ts : List Tx) : Tx :=
  ts.foldl minStep t

/-- Days-since-epoch to Gregorian `(year, month, day)`; Euclidean
division makes the civil-calendar algorithm valid for every day. -/
def civilFromDays (z : Int) : Int × Int × Int :=
  let z := z + 719468
  let era := z.ediv 146097
  let doe := z - era * 146097
  let yoe := (doe - doe.ediv 1460 + doe.ediv 36524 - doe.ediv 146096).ediv 365
  let y := yoe + era * 400
  let doy := doe - (365 * yoe + yoe.ediv 4 - yoe.ediv 100)
  let mp := (5 * doy + 2).ediv 153
  let d := doy - (153 * mp + 2).ediv 5 + 1
  let m := mp + (if mp < 10 then 3 else -9)
  (y + (if m ≤ 2 then 1 else 0), m, d)

/-- Two-digit zero-padded rendering of a month or day number. -/
def pad2 (n : Int) : String :=
  if 0 ≤ n ∧ n < 10 then "0" ++ toString n else toString n

/-- `datetime.fromtimestamp(ms / 1000, timezone(timedelta(hours=7)))`
followed by `strftime('%Y-%m-%d')`: shift the epoch-millisecond instant
by the fixed GMT+7 offset, take the calendar date, render it. -/
def dateStrGMT7 (ms : Int) : String :=
  let day := (ms + 25200000).ediv 86400000
  let ymd := civilFromDays day
  toString ymd.1 ++ "-" ++ pad2 ymd.2.1 ++ "-" ++ pad2 ymd.2.2

/-- `AdditionalDataService.find_creation_date` (wallet_analyzer.py lines
368-388). `none` models both an absent response and a response without a
`data` key; a present empty list returns `none`; otherwise the entry
with the minimal timestamp is taken and its date returned — unless that
entry's timestamp is absent or `0` (both falsy in `if not
oldest_timestamp`), which also returns `none`. -/
def find_creation_date (transaction_data : Option (List Tx)) : Option String :=
  match transaction_data with
  | none => none
  | some [] => none
  | some (t :: ts) =>
      match (minByTs t ts).timestamp with
      | none => none
      | some ms => if ms = 0 then none else some (dateStrGMT7 ms)

/-! Helper lemmas about the token scan. -/

theorem scanTokens_eq_zero (ts : List Token)
    (h : ∀ t ∈ ts, t.tokenId ≠ some USDT_CONTRACT) : scanTokens ts = 0 := by
  induction ts with
  | nil => rfl
  | cons t ts ih =>
      have ht : ¬t.tokenId = some USDT_CONTRACT := h t (List.mem_cons_self t ts)
      simp only [scanTokens, if_neg ht]
      exact ih fun u hu => h u (List.mem_cons_of_mem t hu)

theorem scanTokens_nonneg (ts : List Token)
    (h : ∀ t ∈ ts, ∀ q : ℚ, parseDec (t.balance.getD "0") = some q → 0 ≤ q) :
    0 ≤ scanTokens ts := by
  induction ts with
  | nil => simp [scanTokens]
  | cons t ts ih =>
      by_cases hid : t.tokenId = some USDT_CONTRACT
      · simp only [scanTokens, if_pos hid]
        cases hp : parseDec (t.balance.getD "0") with
        | none => simp
        | some q =>
            simp only
            have hq : 0 ≤ q := h t (List.mem_cons_self t ts) q hp
            positivity
      · simp only [scanTokens, if_neg hid]
        exact ih fun u hu => h u (List.mem_cons_of_mem t hu)

theorem parseDec_eq_of_parts (s : String) (p : Bool × ℕ × ℕ × ℕ) (q : ℚ)
    (h : parseDecParts s = some p) (hq : partsVal p = q) :
    parseDec s = some q := by
  rw [parseDec, h, Option.map_some', hq]

theorem get_balance_single (s : String) (rest : List Token) (q : ℚ)
    (h : parseDec s = some q) :
    get_usdt_trc20_balance (.ok (⟨some USDT_CONTRACT, some s⟩ :: rest)) =
      some (q / 1000000) := by
  simp [get_usdt_trc20_balance, scanTokens, h]

theorem validate_isEmpty_false (a : String)
    (h : validate_trc20_address a = true) : a.isEmpty = false := by
  cases hie : a.isEmpty with
  | false => rfl
  | true =>
      unfold validate_trc20_address at h
      rw [if_pos hie] at h
      simp at h

/-- Claim C2: `get_usdt_trc20_balance` returns `none` exactly when the
request fails (timeout, transport error, non-2xx status, malformed
body), and returns a successful zero when the request succeeds but the
tracked contract is absent from the token list; a failure is never a
zero and a legitimate zero is never a failure. -/
theorem C2_failure_iff_none_and_absent_is_zero (o : ApiOutcome) :
    (get_usdt_trc20_balance o = none ↔ o.isFailure = true) ∧
    (∀ data : List Token, o = .ok data →
      (∀ t ∈ data, t.tokenId ≠ some USDT_CONTRACT) →
      get_usdt_trc20_balance o = some 0) := by
  constructor
  · cases o <;> simp [get_usdt_trc20_balance, ApiOutcome.isFailure]
    split <;> simp
  · rintro data rfl h
    by_cases hd : data = []
    · subst hd; rfl
    · simp [get_usdt_trc20_balance, hd, scanTokens_eq_zero data h]

/-- Witness for C2 at a one-token list not holding the USDT contract. -/
theorem C2_witness :
    get_usdt_trc20_balance (.ok [⟨some "TOTHER", some "5"⟩]) = some 0 :=
  (C2_failure_iff_none_and_absent_is_zero (.ok [⟨some "TOTHER", some "5"⟩])).2
    _ rfl (by decide)

/-- Claim C4: a raw minor-unit balance string denoting the non-negative
integer B, reported for the tracked contract, yields the decimal balance
B / 1,000,000 exactly (in exact rational — i.e. base-10 decimal —
arithmetic, no binary floating point). -/
theorem C4_decimal_scaling (s : String) (B : ℕ) (rest : List Token)
    (h : parseDec s = some (B : ℚ)) :
    get_usdt_trc20_balance (.ok (⟨some USDT_CONTRACT, some s⟩ :: rest)) =
      some ((B : ℚ) / 1000000) :=
  get_balance_single s rest (B : ℚ) h

/-- Witness for C4: raw string `"1500000"` yields exactly 1.5. -/
theorem C4_witness :
    get_usdt_trc20_balance (.ok [⟨some USDT_CONTRACT, some "1500000"⟩]) =
      some (((1500000 : ℕ) : ℚ) / 1000000) ∧
      (((1500000 : ℕ) : ℚ) / 1000000) = 1.5 := by
  constructor
  · exact C4_decimal_scaling "1500000" 1500000 []
      (parseDec_eq_of_parts _ (false, 1500000, 0, 0) _ (by decide)
        (by norm_num [partsVal]))
  · norm_num

/-- Claim C5: `validate_trc20_address` accepts exactly the strings that
start with `'T'` and have length 34, and `check_all_wallets` sends a
wallet to the balance fetch exactly when its address is present and
passes that check. -/
theorem C5_validate_and_reject :
    (∀ a : String, validate_trc20_address a = true ↔
        (a.startsWith "T" = true ∧ a.length = 34)) ∧
    (∀ (wd : List (String × WalletInfo)) (n a : String),
      (n, a) ∈ selectValidWallets wd ↔
        ∃ wi : WalletInfo, (n, wi) ∈ wd ∧ wi.address = some a ∧
          validate_trc20_address a = true) := by
  constructor
  · intro a
    unfold validate_trc20_address
    by_cases he : a.isEmpty = true
    · rw [if_pos he]
      have ha : a = "" := (String.isEmpty_iff a).1 he
      subst ha
      simp
    · rw [if_neg he]
      simp [Bool.and_eq_true]
  · intro wd n a
    unfold selectValidWallets
    rw [List.mem_filterMap]
    constructor
    · rintro ⟨⟨n', wi⟩, hmem, hf⟩
      dsimp only at hf
      cases haddr : wi.address with
      | none => rw [haddr] at hf; simp [selectAddr] at hf
      | some b =>
          rw [haddr] at hf
          by_cases hc : ¬b.isEmpty = true ∧ validate_trc20_address b = true
          · rw [selectAddr, if_pos hc] at hf
            have h1 := Option.some.inj hf
            rw [Prod.mk.injEq] at h1
            obtain ⟨rfl, rfl⟩ := h1
            exact ⟨wi, hmem, haddr, hc.2⟩
          · rw [selectAddr, if_neg hc] at hf
            simp at hf
    · rintro ⟨wi, hmem, haddr, hval⟩
      refine ⟨(n, wi), hmem, ?_⟩
      dsimp only
      rw [haddr]
      have hne : ¬a.isEmpty = true := by
        rw [validate_isEmpty_false a hval]; simp
      rw [selectAddr, if_pos ⟨hne, hval⟩]

/-- Counterexample for C8: a token-list response whose raw balance string
denotes a negative integer makes `get_usdt_trc20_balance` return a
negative balance, so the non-negativity invariant fails as stated. -/
theorem C8_counterexample :
    get_usdt_trc20_balance (.ok [⟨some USDT_CONTRACT, some "-1000000"⟩]) =
      some (-1) ∧ ((-1 : ℚ) < 0) := by
  constructor
  · have hp : parseDec "-1000000" = some (-1000000 : ℚ) :=
      parseDec_eq_of_parts _ (true, 1000000, 0, 0) _ (by decide)
        (by norm_num [partsVal])
    rw [get_balance_single "-1000000" [] _ hp,
      show ((-1000000 : ℚ) / 1000000) = -1 by norm_num]
  · norm_num

/-- Claim C8 (amended): whenever every raw balance string of the
response parses to a non-negative number, a present balance returned by
`get_usdt_trc20_balance` is non-negative (a negative raw string, which
the upstream API never produces for token balances, would propagate as a
negative balance). -/
theorem C8_nonneg_amended (data : List Token) (b : Dec)
    (hraw : ∀ t ∈ data, ∀ q : ℚ, parseDec (t.balance.getD "0") = some q → 0 ≤ q)
    (hb : get_usdt_trc20_balance (.ok data) = some b) : 0 ≤ b := by
  by_cases hd : data = []
  · subst hd
    simp only [get_usdt_trc20_balance, if_pos rfl] at hb
    have hb0 : (0 : ℚ) = b := Option.some.inj hb
    rw [← hb0]
  · simp only [get_usdt_trc20_balance, if_neg hd] at hb
    have hsc : scanTokens data = b := Option.some.inj hb
    rw [← hsc]
    exact scanTokens_nonneg data hraw

/-- Witness for C8 (amended) at the raw string `"2500000"`. -/
theorem C8_witness : (0 : ℚ) ≤ 5 / 2 :=
  C8_nonneg_amended [⟨some USDT_CONTRACT, some "2500000"⟩] (5 / 2)
    (by
      intro t ht q hq
      rw [List.mem_singleton] at ht
      subst ht
      have h25 : parseDec ((some "2500000").getD "0") = some (2500000 : ℚ) :=
        parseDec_eq_of_parts _ (false, 2500000, 0, 0) _ (by decide)
          (by norm_num [partsVal])
      rw [h25] at hq
      have hq' : (2500000 : ℚ) = q := Option.some.inj hq
      rw [← hq']
      norm_num)
    (by
      have hp : parseDec "2500000" = some (2500000 : ℚ) :=
        parseDec_eq_of_parts _ (false, 2500000, 0, 0) _ (by decide)
          (by norm_num [partsVal])
      rw [get_balance_single "2500000" [] _ hp,
        show ((2500000 : ℚ) / 1000000) = 5 / 2 by norm_num])

/-! Fold lemmas for the two aggregation loops. -/

theorem summarize_go (bs : List (String × Option Dec)) :
    ∀ s : Summary,
      (bs.foldl summarizeStep s).total_usdt_balance =
        s.total_usdt_balance + (bs.filterMap (fun nb => nb.2)).sum ∧
      (bs.foldl summarizeStep s).successful_checks =
        s.successful_checks + bs.countP (fun nb => nb.2.isSome) ∧
      (bs.foldl summarizeStep s).failed_checks =
        s.failed_checks + bs.countP (fun nb => nb.2.isNone) := by
  induction bs with
  | nil => intro s; simp
  | cons nb bs ih =>
      intro s
      obtain ⟨h1, h2, h3⟩ := ih (summarizeStep s nb)
      refine ⟨?_, ?_, ?_⟩
      · rw [List.foldl_cons, h1]
        cases hb : nb.2 <;> simp [summarizeStep, hb, List.filterMap_cons]
        all_goals ring
      · rw [List.foldl_cons, h2]
        cases hb : nb.2 <;> simp [summarizeStep, hb, List.countP_cons]
        all_goals omega
      · rw [List.foldl_cons, h3]
        cases hb : nb.2 <;> simp [summarizeStep, hb, List.countP_cons]
        all_goals omega

theorem master_go (rs : List WalletSummary) :
    ∀ t : MasterTotals,
      (rs.foldl masterStep t).total_usdt_balance =
        t.total_usdt_balance +
          (rs.filterMap (fun s => s.usdt_balance_decimal)).sum ∧
      (rs.foldl masterStep t).successful_balance_checks =
        t.successful_balance_checks +
          rs.countP (fun s => s.usdt_balance_decimal.isSome) := by
  induction rs with
  | nil => intro t; simp
  | cons r rs ih =>
      intro t
      obtain ⟨h1, h2⟩ := ih (masterStep t r)
      refine ⟨?_, ?_⟩
      · rw [List.foldl_cons, h1]
        cases hb : r.usdt_balance_decimal <;>
          cases ht : r.trc20_api_success <;>
            simp [masterStep, hb, ht, List.filterMap_cons]
        all_goals ring
      · rw [List.foldl_cons, h2]
        cases hb : r.usdt_balance_decimal <;>
          cases ht : r.trc20_api_success <;>
            simp [masterStep, hb, ht, List.countP_cons]
        all_goals omega

/-- Claim C1: the run totals of `check_all_wallets` and of
`create_master_summary` equal the exact sum of the successfully fetched
balances; a wallet whose balance is the failure marker contributes
nothing to the total (it is not treated as zero) and is counted only in
`failed_checks`. -/
theorem C1_total_balance :
    (∀ (fetch : String → Option Dec) (wd : List (String × WalletInfo)),
      (check_all_wallets fetch wd).total_usdt_balance =
        ((fetch_multiple_balances fetch (selectValidWallets wd)).filterMap
          (fun nb => nb.2)).sum ∧
      (check_all_wallets fetch wd).successful_checks =
        (fetch_multiple_balances fetch (selectValidWallets wd)).countP
          (fun nb => nb.2.isSome) ∧
      (check_all_wallets fetch wd).failed_checks =
        (fetch_multiple_balances fetch (selectValidWallets wd)).countP
          (fun nb => nb.2.isNone)) ∧
    (∀ results : List WalletSummary,
      (create_master_summary_totals results).total_usdt_balance =
        (results.filterMap (fun s => s.usdt_balance_decimal)).sum ∧
      (create_master_summary_totals results).successful_balance_checks =
        results.countP (fun s => s.usdt_balance_decimal.isSome)) := by
  constructor
  · intro fetch wd
    have h := summarize_go
      (fetch_multiple_balances fetch (selectValidWallets wd)) ⟨0, 0, 0, 0⟩
    simpa [check_all_wallets, summarize] using h
  · intro results
    have h := master_go results ⟨0, 0, 0, 0, 0, 0⟩
    simpa [create_master_summary_totals] using h

/-- Claim C9: `fetch_multiple_balances` returns one entry per input
wallet with the same keys in the same order, and each wallet's entry is
its own fetched balance or its own failure marker — a failure of one
wallet's fetch never removes or alters any other wallet's entry and
never aborts the loop. -/
theorem C9_per_wallet_isolation (fetch : String → Option Dec)
    (ws : List (String × String)) :
    (fetch_multiple_balances fetch ws).map Prod.fst = ws.map Prod.fst ∧
    ∀ n a, (n, a) ∈ ws → (n, fetch a) ∈ fetch_multiple_balances fetch ws := by
  constructor
  · rw [fetch_multiple_balances, List.map_map]
    rfl
  · intro n a h
    exact List.mem_map_of_mem _ h

/-- Witness for C9: with a fetch that always fails, both wallets keep
their entries and each holds the failure marker. -/
theorem C9_witness :
    ("w1", (none : Option Dec)) ∈
      fetch_multiple_balances (fun _ => none) [("w1", "A"), ("w2", "B")] :=
  (C9_per_wallet_isolation (fun _ => none) [("w1", "A"), ("w2", "B")]).2
    "w1" "A" (by simp)

/-- Claim C3: the derived wallet status is the first matching case of,
in order: `"API Failed"` when the balance fetch did not succeed
(regardless of the other fields); else `"Has USDT Balance"` when the
balance is positive; else `"Active (No USDT)"` when the TRX balance or
the transaction count is positive; else `"Empty/Inactive"`. In
particular a wallet with zero balance but nonzero transaction count is
classified active, never empty. -/
theorem C3_wallet_status (ok : Bool) (b trx : Dec) (tx : ℕ) :
    (ok = false → create_csv_row_wallet_status ok b trx tx = "API Failed") ∧
    (ok = true → 0 < b →
      create_csv_row_wallet_status ok b trx tx = "Has USDT Balance") ∧
    (ok = true → ¬0 < b → (0 < trx ∨ 0 < tx) →
      create_csv_row_wallet_status ok b trx tx = "Active (No USDT)") ∧
    (ok = true → ¬0 < b → ¬(0 < trx ∨ 0 < tx) →
      create_csv_row_wallet_status ok b trx tx = "Empty/Inactive") ∧
    (b = 0 → 0 < tx → ok = true →
      create_csv_row_wallet_status ok b trx tx = "Active (No USDT)") := by
  refine ⟨?_, ?_, ?_, ?_, ?_⟩
  · rintro rfl; rfl
  · rintro rfl hb; simp [create_csv_row_wallet_status, hb]
  · rintro rfl hb hor; simp [create_csv_row_wallet_status, hb, hor]
  · rintro rfl hb hnor; simp [create_csv_row_wallet_status, hb, hnor]
  · rintro rfl htx rfl
    simp [create_csv_row_wallet_status, htx]

/-- Witness for C3: zero balance, zero TRX, three transactions, fetch
succeeded — classified active, not empty. -/
theorem C3_witness :
    create_csv_row_wallet_status true 0 0 3 = "Active (No USDT)" :=
  (C3_wallet_status true 0 0 3).2.2.2.2 rfl (by norm_num) rfl

/-! Fold lemma for the transfer-counting loop. -/

theorem countLoop_go (ts : List Transfer) (w : String) :
    ∀ acc : ℕ × ℕ,
      ts.foldl (countStep w) acc =
        (acc.1 + ts.countP (fun t => t.effTo == w),
          acc.2 + ts.countP (fun t => !(t.effTo == w) && (t.effFrom == w))) := by
  induction ts with
  | nil => intro acc; simp
  | cons t ts ih =>
      intro acc
      rw [List.foldl_cons, ih]
      by_cases h1 : t.effTo = w
      · simp [countStep, h1, List.countP_cons, Prod.ext_iff]
        omega
      · by_cases h2 : t.effFrom = w
        · simp [countStep, h1, h2, List.countP_cons, Prod.ext_iff]
          omega
        · simp [countStep, h1, h2, List.countP_cons, Prod.ext_iff]

/-- Claim C6: `count_trc20_transfers` counts a transfer as incoming iff
its (effective, lowercased) to-address equals the lowercased wallet
address, as outgoing iff its from-address does and it was not already
counted incoming, ignores every entry matching neither, and reports
`total_trc20_transfers` as the sum of the two counters. -/
theorem C6_transfer_direction (ts : List Transfer) (w : String) :
    (count_trc20_transfers (some ⟨some ts, none⟩) w).trc20_transfers_in =
        ts.countP (fun t => t.effTo == pyLower w) ∧
    (count_trc20_transfers (some ⟨some ts, none⟩) w).trc20_transfers_out =
        ts.countP (fun t => !(t.effTo == pyLower w) && (t.effFrom == pyLower w)) ∧
    (count_trc20_transfers (some ⟨some ts, none⟩) w).total_trc20_transfers =
      (count_trc20_transfers (some ⟨some ts, none⟩) w).trc20_transfers_in +
        (count_trc20_transfers (some ⟨some ts, none⟩) w).trc20_transfers_out := by
  by_cases he : ts = []
  · subst he; simp [count_trc20_transfers]
  · have h := countLoop_go ts (pyLower w) (0, 0)
    simp at h
    simp [count_trc20_transfers, he, countTransfersLoop, h]

theorem countP_in_out_le (l : List Transfer) (p r : Transfer → Bool) :
    l.countP p + l.countP (fun a => !p a && r a) ≤ l.length := by
  induction l with
  | nil => simp
  | cons x l ih =>
      rw [List.countP_cons, List.countP_cons, List.length_cons]
      cases hp : p x <;> cases hr : r x <;> simp [hp, hr]
      all_goals omega

/-- Claim C10: each transfer is counted at most once, so the two
counters sum to at most the number of entries; a self-transfer, whose
to-address and from-address both equal the wallet address, is counted as
incoming only, never as both. -/
theorem C10_each_entry_once (ts : List Transfer) (w : String) :
    (count_trc20_transfers (some ⟨some ts, none⟩) w).trc20_transfers_in +
      (count_trc20_transfers (some ⟨some ts, none⟩) w).trc20_transfers_out ≤
        ts.length ∧
    ∀ t : Transfer, t.effTo = pyLower w → t.effFrom = pyLower w →
      (count_trc20_transfers (some ⟨some [t], none⟩) w).trc20_transfers_in = 1 ∧
      (count_trc20_transfers (some ⟨some [t], none⟩) w).trc20_transfers_out = 0 := by
  constructor
  · by_cases he : ts = []
    · subst he; simp [count_trc20_transfers]
    · have h := countLoop_go ts (pyLower w) (0, 0)
      simp at h
      simp [count_trc20_transfers, he, countTransfersLoop, h]
      exact countP_in_out_le ts _ _
  · intro t h1 h2
    refine ⟨?_, ?_⟩ <;>
      simp [count_trc20_transfers, countTransfersLoop, countStep, h1]

/-- Witness for C10: a self-transfer (case-insensitively matching the
wallet on both sides) counts as exactly one incoming and no outgoing. -/
theorem C10_witness :
    (count_trc20_transfers
        (some ⟨some [⟨"A", "A", "", ""⟩], none⟩) "a").trc20_transfers_in = 1 ∧
    (count_trc20_transfers
        (some ⟨some [⟨"A", "A", "", ""⟩], none⟩) "a").trc20_transfers_out = 0 :=
  (C10_each_entry_once [⟨"A", "A", "", ""⟩] "a").2 ⟨"A", "A", "", ""⟩
    (by decide) (by decide)

/-! Order lemmas for the timestamp comparison and the fold computing the
earliest entry. -/

theorem tsLt_trans (a b c : Option Int) (h1 : tsLt a b = true)
    (h2 : tsLt b c = true) : tsLt a c = true := by
  cases a <;> cases b <;> cases c <;> simp [tsLt] at *
  all_goals omega

theorem tsLt_irrefl (a : Option Int) : tsLt a a = false := by
  cases a <;> simp [tsLt]

theorem tsLt_false_right (a b m : Option Int) (hab : tsLt a b = true)
    (ham : tsLt a m = false) : tsLt b m = false := by
  cases hbm : tsLt b m
  · rfl
  · have := tsLt_trans a b m hab hbm
    rw [ham] at this
    exact Bool.noConfusion this

theorem tsLt_false_both (u t m : Option Int) (h1 : tsLt u t = false)
    (h2 : tsLt t m = false) : tsLt u m = false := by
  cases u <;> cases t <;> cases m <;> simp [tsLt] at *
  all_goals omega

theorem minByTs_spec (ts : List Tx) : ∀ t : Tx,
    minByTs t ts ∈ t :: ts ∧
    ∀ v ∈ t :: ts, tsLt v.timestamp (minByTs t ts).timestamp = false := by
  induction ts with
  | nil =>
      intro t
      refine ⟨List.mem_cons_self t [], ?_⟩
      intro v hv
      rw [List.mem_singleton] at hv
      subst hv
      exact tsLt_irrefl _
  | cons u ts ih =>
      intro t
      have hfold : minByTs t (u :: ts) = minByTs (minStep t u) ts := rfl
      obtain ⟨hmem, hmin⟩ := ih (minStep t u)
      constructor
      · rw [hfold]
        rcases List.mem_cons.mp hmem with h | h
        · rw [h]
          unfold minStep
          split
          · exact List.mem_cons_of_mem t (List.mem_cons_self u ts)
          · exact List.mem_cons_self t (u :: ts)
        · exact List.mem_cons_of_mem t (List.mem_cons_of_mem u h)
      · intro v hv
        rw [hfold]
        have hbmin : tsLt (minStep t u).timestamp
            (minByTs (minStep t u) ts).timestamp = false :=
          hmin _ (List.mem_cons_self _ ts)
        rcases List.mem_cons.mp hv with h | h
        · subst h
          by_cases hc : tsLt u.timestamp v.timestamp = true
          · have hb : minStep v u = u := by unfold minStep; rw [if_pos hc]
            rw [hb] at hbmin ⊢
            exact tsLt_false_right _ _ _ hc hbmin
          · have hb : minStep v u = v := by
              unfold minStep
              rw [if_neg hc]
            rw [hb] at hbmin ⊢
            exact hbmin
        · rcases List.mem_cons.mp h with h' | h'
          · subst h'
            by_cases hc : tsLt v.timestamp t.timestamp = true
            · have hb : minStep t v = v := by unfold minStep; rw [if_pos hc]
              rw [hb] at hbmin ⊢
              exact hbmin
            · have hb : minStep t v = t := by
                unfold minStep
                rw [if_neg hc]
              rw [hb] at hbmin ⊢
              have hc' : tsLt v.timestamp t.timestamp = false := by
                rwa [Bool.not_eq_true] at hc
              exact tsLt_false_both _ _ _ hc' hbmin
          · exact hmin v (List.mem_cons_of_mem _ h')

/-- Counterexample for C7: a response with the non-empty entry list
whose earliest timestamp is 0 (epoch, GMT+7 date 1970-01-01) makes
`find_creation_date` return `none`, not that date: the code treats a
zero timestamp as falsy. -/
theorem C7_counterexample :
    find_creation_date (some [⟨some 0⟩]) = none ∧
      dateStrGMT7 0 = "1970-01-01" := by
  constructor
  · rfl
  · rfl

/-- Claim C7 (amended): `find_creation_date` returns the GMT+7 date of
the entry with the earliest (minimum) timestamp provided that timestamp
is present and nonzero, and returns `none` for an absent response, an
empty entry list, or an earliest entry whose timestamp is missing or
zero. -/
theorem C7_creation_date_amended (t : Tx) (ts : List Tx) :
    (minByTs t ts ∈ t :: ts ∧
      ∀ v ∈ t :: ts, tsLt v.timestamp (minByTs t ts).timestamp = false) ∧
    (∀ ms : Int, (minByTs t ts).timestamp = some ms → ms ≠ 0 →
      find_creation_date (some (t :: ts)) = some (dateStrGMT7 ms)) ∧
    ((minByTs t ts).timestamp = none →
      find_creation_date (some (t :: ts)) = none) ∧
    ((minByTs t ts).timestamp = some 0 →
      find_creation_date (some (t :: ts)) = none) ∧
    find_creation_date none = none ∧ find_creation_date (some []) = none := by
  refine ⟨minByTs_spec ts t, ?_, ?_, ?_, rfl, rfl⟩
  · intro ms hms hne
    simp [find_creation_date, hms, hne]
  · intro hms
    simp [find_creation_date, hms]
  · intro hms
    simp [find_creation_date, hms]

/-- Witness for C7 (amended): of two entries the one with timestamp
1000 ms is earliest and its GMT+7 date is returned. -/
theorem C7_witness :
    find_creation_date (some [⟨some 86400000⟩, ⟨some 1000⟩]) =
      some (dateStrGMT7 1000) :=
  (C7_creation_date_amended ⟨some 86400000⟩ [⟨some 1000⟩]).2.1 1000
    (by decide) (by decide)

end WalletCheck
